import Mathlib

/-!
Verification of the Ares-hackathon sector dashboard core logic.

The definitions below are shallow embeddings of the TypeScript source:
the pairwise conflict-detection loop, the two position-projection
functions and the ghost-trajectory generator of
frontend/src/components/MapView.tsx, the task-resolution handlers of
TaskPanel.tsx, and the workload colour classification of the workload
metrics component.  JavaScript numbers are modelled as real numbers; a
separate NaN-aware model (Option over the reals) is used where IEEE-754
NaN propagation matters.
-/

open Real

namespace Ares

/-- Aircraft state, from the TypeScript Aircraft interface (types.ts):
callsign, icao24, latitude, longitude, altitude_ft, velocity_kts,
heading_deg, vertical_rate_fpm, on_ground, last_contact. -/
structure Aircraft where
  callsign : String
  icao24 : String
  latitude : ℝ
  longitude : ℝ
  altitude_ft : ℝ
  velocity_kts : ℝ
  heading_deg : ℝ
  vertical_rate_fpm : ℝ
  on_ground : Bool
  last_contact : ℝ

/-- JavaScript Math.atan2, defined piecewise from arctan.  The signed-zero
distinctions of IEEE-754 are not representable over the reals; every use in
the embedded code has a nonnegative second argument, where this definition
agrees with Math.atan2. -/
noncomputable def atan2 (y x : ℝ) : ℝ :=
  if 0 < x then arctan (y / x)
  else if x < 0 ∧ 0 ≤ y then arctan (y / x) + π
  else if x < 0 ∧ y < 0 then arctan (y / x) - π
  else if x = 0 ∧ 0 < y then π / 2
  else if x = 0 ∧ y < 0 then -(π / 2)
  else 0

/-- Horizontal distance in metres between two aircraft, exactly as computed
inline in the conflict-detection loop of MapView.tsx (lines 854 to 867):
haversine form with R = 6371e3 metres and c = 2 atan2(sqrt a, sqrt (1-a)). -/
noncomputable def distMeters (ac1 ac2 : Aircraft) : ℝ :=
  let R : ℝ := 6371e3
  let phi1 := ac1.latitude * π / 180
  let phi2 := ac2.latitude * π / 180
  let dphi := (ac2.latitude - ac1.latitude) * π / 180
  let dlam := (ac2.longitude - ac1.longitude) * π / 180
  let a := Real.sin (dphi / 2) * Real.sin (dphi / 2) +
    Real.cos phi1 * Real.cos phi2 * Real.sin (dlam / 2) * Real.sin (dlam / 2)
  let c := 2 * atan2 (Real.sqrt a) (Real.sqrt (1 - a))
  R * c

/-- Horizontal separation in nautical miles: d / 1852 (MapView.tsx line 866). -/
noncomputable def distNm (ac1 ac2 : Aircraft) : ℝ :=
  distMeters ac1 ac2 / 1852

/-- Vertical separation: Math.abs(ac1.altitude_ft - ac2.altitude_ft). -/
noncomputable def altDiff (ac1 ac2 : Aircraft) : ℝ :=
  |ac1.altitude_ft - ac2.altitude_ft|

/-- The conflict condition of MapView.tsx line 871: distNm < 5 && altDiff < 1000.
The comment directly above it in the source reads: Conflict Criteria: < 3nm AND < 1000ft. -/
def isConflict (ac1 ac2 : Aircraft) : Prop :=
  distNm ac1 ac2 < 5 ∧ altDiff ac1 ac2 < 1000

/-- The ordered pairs (i, j) with i < j visited by the nested loops of the
conflict-detection pass (for i; for j = i+1). -/
def orderedPairs {α : Type} : List α → List (α × α)
  | [] => []
  | x :: xs => (xs.map fun y => (x, y)) ++ orderedPairs xs

open Classical in
/-- The list of aircraft pairs for which a conflict line feature is pushed by
the conflict-detection loop of MapView.tsx (lines 829 to 887): every ordered
pair satisfying the conflict condition.  Note the source applies no on-ground
filter. -/
noncomputable def conflictFeatures (aircraft : List Aircraft) : List (Aircraft × Aircraft) :=
  (orderedPairs aircraft).filter fun p => decide (isConflict p.1 p.2)

/-- Flat-earth position prediction of MapView.tsx lines 25 to 35, returning
the pair (lon, lat): one degree is taken as 69 miles, displacement is along
the heading plus offset. -/
noncomputable def predictPosition (ac : Aircraft) (timeMinutes : ℝ) (headingOffset : ℝ) : ℝ × ℝ :=
  let speedMilesPerMin := ac.velocity_kts / 60
  let distanceMiles := speedMilesPerMin * timeMinutes
  let distanceDegrees := distanceMiles / 69
  let headingRad := (ac.heading_deg + headingOffset) * π / 180
  let lat := ac.latitude + Real.cos headingRad * distanceDegrees
  let lon := ac.longitude + Real.sin headingRad * distanceDegrees
  (lon, lat)

/-- Spherical great-circle position projection of MapView.tsx lines 918 to 940,
returning the pair (lon, lat) in degrees. -/
noncomputable def calculateFuturePosition (lat lon speedKts headingDeg minutes : ℝ) : ℝ × ℝ :=
  let R : ℝ := 6371e3
  let distanceMeters := speedKts * 1852 * minutes / 60
  let angularDist := distanceMeters / R
  let headingRad := headingDeg * π / 180
  let latRad := lat * π / 180
  let lonRad := lon * π / 180
  let nextLatRad := Real.arcsin (Real.sin latRad * Real.cos angularDist +
    Real.cos latRad * Real.sin angularDist * Real.cos headingRad)
  let nextLonRad := lonRad + atan2
    (Real.sin headingRad * Real.sin angularDist * Real.cos latRad)
    (Real.cos angularDist - Real.sin latRad * Real.sin nextLatRad)
  (nextLonRad * 180 / π, nextLatRad * 180 / π)

/-- The projection horizons of the ghost-trajectory generator in MapView.tsx
line 944: the literal array [2, 5, 8] (minutes). -/
noncomputable def ghostMinutes : List ℝ := [2, 5, 8]

/-- Ghost features generated by MapView.tsx lines 942 to 960: for each
aircraft and each horizon in ghostMinutes, one point at the projected
position tagged with the horizon.  The generation is per aircraft; no
pairwise classification is applied. -/
noncomputable def ghostFeatures (aircraft : List Aircraft) : List ((ℝ × ℝ) × ℝ) :=
  aircraft.flatMap fun ac => ghostMinutes.map fun m =>
    (calculateFuturePosition ac.latitude ac.longitude ac.velocity_kts ac.heading_deg m, m)

/-- Task record, from the Task interface of the task panel component. -/
structure Task where
  id : String
  aircraft_icao24 : String
  priority : String
  category : String
  summary : String
  fingerprint : String
  status : String
  created_at : String
  last_seen : String
deriving DecidableEq

/-- Resolution of a task by id, as implemented both by resolveTask in the
task panel component and by handleResolve in TaskPanel.tsx (lines 46 to 48):
setTasks(tasks.filter(t => t.id !== taskId)). -/
def resolveTask (tasks : List Task) (taskId : String) : List Task :=
  tasks.filter fun t => t.id != taskId

/-- Score colour classification of the workload metrics component
(getScoreColor): at least 80 red, at least 60 orange, at least 40 yellow,
otherwise green. -/
def getScoreColor (score : ℚ) : String :=
  if score ≥ 80 then "text-red-500"
  else if score ≥ 60 then "text-orange-500"
  else if score ≥ 40 then "text-yellow-500"
  else "text-green-500"

/-- Workload level colour classification of the workload metrics component
(getWorkloadColor), a switch on the level string. -/
def getWorkloadColor (level : String) : String :=
  if level = "CRITICAL" then "text-red-600 font-bold animate-pulse"
  else if level = "HIGH" then "text-orange-500 font-bold"
  else if level = "MODERATE" then "text-yellow-500"
  else if level = "LOW" then "text-green-500"
  else "text-gray-500"

/-- Specification-side horizontal separation, following the words of the
spec: great-circle distance by the haversine formula (classical arcsin
form), earth radius 6371 km, metres converted to nautical miles by
dividing by 1852. -/
noncomputable def specSeparationHorizontalNm (a b : Aircraft) : ℝ :=
  let phi1 := a.latitude * π / 180
  let phi2 := b.latitude * π / 180
  let dphi := (b.latitude - a.latitude) * π / 180
  let dlam := (b.longitude - a.longitude) * π / 180
  let h := Real.sin (dphi / 2) ^ 2 +
    Real.cos phi1 * Real.cos phi2 * Real.sin (dlam / 2) ^ 2
  2 * 6371000 * Real.arcsin (Real.sqrt h) / 1852

/-- Specification-side vertical separation: absolute altitude delta in feet. -/
noncomputable def specSeparationVerticalFt (a b : Aircraft) : ℝ :=
  |a.altitude_ft - b.altitude_ft|

/-- Floating-point numbers restricted to the aspects the embedding needs:
a real value or NaN (none). -/
abbrev RF := Option ℝ

/-- Lift of a unary real operation; NaN propagates, matching IEEE-754 for
the transcendental functions used by the source. -/
def nmap (f : ℝ → ℝ) : RF → RF
  | some a => some (f a)
  | none => none

/-- Lift of a binary real operation; a NaN operand makes the result NaN,
matching IEEE-754 for the arithmetic used by the source. -/
def nmap2 (f : ℝ → ℝ → ℝ) : RF → RF → RF
  | some a, some b => some (f a b)
  | _, _ => none

noncomputable def nsin : RF → RF := nmap Real.sin

noncomputable def ncos : RF → RF := nmap Real.cos

/-- Square root with the JavaScript convention that the square root of a
negative number is NaN. -/
noncomputable def nsqrt : RF → RF
  | some a => if a < 0 then none else some (Real.sqrt a)
  | none => none

noncomputable def natan2 : RF → RF → RF := nmap2 atan2

noncomputable def nadd : RF → RF → RF := nmap2 (· + ·)

noncomputable def nsub : RF → RF → RF := nmap2 (· - ·)

noncomputable def nmul : RF → RF → RF := nmap2 (· * ·)

noncomputable def ndiv : RF → RF → RF := nmap2 (· / ·)

/-- Less-than with the IEEE-754 convention: any comparison involving NaN
is false. -/
noncomputable def nltb : RF → RF → Bool
  | some a, some b => decide (a < b)
  | _, _ => false

/-- Aircraft state in the NaN-aware model: latitude and longitude may be
NaN (malformed input); the remaining fields used by the conflict check are
kept real. -/
structure AircraftN where
  callsign : String
  latitude : RF
  longitude : RF
  altitude_ft : ℝ
  on_ground : Bool

/-- The horizontal-distance computation of the conflict-detection loop of
MapView.tsx (lines 854 to 865), transcribed over the NaN-aware numbers. -/
noncomputable def distMetersN (ac1 ac2 : AircraftN) : RF :=
  let R : RF := some 6371e3
  let phi1 := ndiv (nmul ac1.latitude (some π)) (some 180)
  let phi2 := ndiv (nmul ac2.latitude (some π)) (some 180)
  let dphi := ndiv (nmul (nsub ac2.latitude ac1.latitude) (some π)) (some 180)
  let dlam := ndiv (nmul (nsub ac2.longitude ac1.longitude) (some π)) (some 180)
  let a := nadd (nmul (nsin (ndiv dphi (some 2))) (nsin (ndiv dphi (some 2))))
    (nmul (nmul (nmul (ncos phi1) (ncos phi2)) (nsin (ndiv dlam (some 2))))
      (nsin (ndiv dlam (some 2))))
  let c := nmul (some 2) (natan2 (nsqrt a) (nsqrt (nsub (some 1) a)))
  nmul R c

/-- Horizontal separation in nautical miles over the NaN-aware numbers. -/
noncomputable def distNmN (ac1 ac2 : AircraftN) : RF :=
  ndiv (distMetersN ac1 ac2) (some 1852)

/-- Vertical separation over the NaN-aware model. -/
noncomputable def altDiffN (ac1 ac2 : AircraftN) : ℝ :=
  |ac1.altitude_ft - ac2.altitude_ft|

/-- The conflict condition distNm < 5 && altDiff < 1000 over the NaN-aware
numbers; a NaN distance makes the comparison false, as in JavaScript. -/
noncomputable def isConflictN (ac1 ac2 : AircraftN) : Bool :=
  nltb (distNmN ac1 ac2) (some 5) && decide (altDiffN ac1 ac2 < 1000)

/-- The conflict pairs produced for a tick in the NaN-aware model; the loop
runs to completion over all pairs regardless of NaN inputs. -/
noncomputable def conflictFeaturesN (aircraft : List AircraftN) : List (AircraftN × AircraftN) :=
  (orderedPairs aircraft).filter fun p => isConflictN p.1 p.2

/-- Concrete airborne aircraft at the origin, used as evaluation input. -/
noncomputable def acSepA : Aircraft :=
  { callsign := "N100", icao24 := "a00001", latitude := 0, longitude := 0,
    altitude_ft := 10000, velocity_kts := 400, heading_deg := 90,
    vertical_rate_fpm := 0, on_ground := false, last_contact := 0 }

/-- Concrete airborne aircraft one fifteenth of a degree of latitude north of
acSepA (about 4.0 nautical miles away) at the same altitude. -/
noncomputable def acSepB : Aircraft :=
  { callsign := "N200", icao24 := "a00002", latitude := 1 / 15, longitude := 0,
    altitude_ft := 10000, velocity_kts := 400, heading_deg := 270,
    vertical_rate_fpm := 0, on_ground := false, last_contact := 0 }

/-- Concrete on-ground aircraft. -/
noncomputable def acG1 : Aircraft :=
  { callsign := "G100", icao24 := "g00001", latitude := 40, longitude := -70,
    altitude_ft := 0, velocity_kts := 10, heading_deg := 0,
    vertical_rate_fpm := 0, on_ground := true, last_contact := 0 }

/-- Concrete on-ground aircraft at the same position as acG1. -/
noncomputable def acG2 : Aircraft :=
  { callsign := "G200", icao24 := "g00002", latitude := 40, longitude := -70,
    altitude_ft := 0, velocity_kts := 12, heading_deg := 180,
    vertical_rate_fpm := 0, on_ground := true, last_contact := 0 }

/-- Aircraft at the equator heading due north at a given speed. -/
noncomputable def acEq (v : ℝ) : Aircraft :=
  { callsign := "EQ", icao24 := "e00001", latitude := 0, longitude := 0,
    altitude_ft := 20000, velocity_kts := v, heading_deg := 0,
    vertical_rate_fpm := 0, on_ground := false, last_contact := 0 }

/-- Concrete NaN-aware aircraft with NaN latitude. -/
noncomputable def acN1 : AircraftN :=
  { callsign := "X100", latitude := none, longitude := some 10,
    altitude_ft := 5000, on_ground := false }

/-- Concrete NaN-aware aircraft with well-formed coordinates. -/
noncomputable def acN2 : AircraftN :=
  { callsign := "X200", latitude := some 10, longitude := some 10,
    altitude_ft := 5000, on_ground := false }

/-- Concrete tasks for witness evaluation. -/
def taskA : Task :=
  { id := "t1", aircraft_icao24 := "a00001", priority := "HIGH",
    category := "SEPARATION", summary := "s1", fingerprint := "f1",
    status := "PENDING", created_at := "0", last_seen := "0" }

/-- Second concrete task with a distinct id. -/
def taskB : Task :=
  { id := "t2", aircraft_icao24 := "a00002", priority := "MEDIUM",
    category := "ALTITUDE", summary := "s2", fingerprint := "f2",
    status := "PENDING", created_at := "0", last_seen := "0" }

/-! Helper lemmas about atan2 and the geometry. -/

lemma atan2_of_pos (y x : ℝ) (hx : 0 < x) : atan2 y x = arctan (y / x) := by
  simp [atan2, hx]

lemma atan2_zero_of_nonneg (x : ℝ) (hx : 0 ≤ x) : atan2 0 x = 0 := by
  rcases eq_or_lt_of_le hx with h | h
  · simp [atan2, ← h]
  · rw [atan2_of_pos 0 x h, zero_div, arctan_zero]

lemma atan2_sin_cos {t : ℝ} (h1 : -(π / 2) < t) (h2 : t < π / 2) :
    atan2 (Real.sin t) (Real.cos t) = t := by
  have hc : 0 < Real.cos t := Real.cos_pos_of_mem_Ioo ⟨h1, h2⟩
  rw [atan2_of_pos _ _ hc, ← Real.tan_eq_sin_div_cos, Real.arctan_tan h1 h2]

lemma sin_half_sq (x : ℝ) : Real.sin (x / 2) ^ 2 = (1 - Real.cos x) / 2 := by
  have h1 := Real.cos_two_mul' (x / 2)
  have h2 := Real.sin_sq_add_cos_sq (x / 2)
  have h3 : 2 * (x / 2) = x := by ring
  rw [h3] at h1
  linarith

lemma distMeters_same_pos (ac1 ac2 : Aircraft)
    (hlat : ac1.latitude = ac2.latitude) (hlon : ac1.longitude = ac2.longitude) :
    distMeters ac1 ac2 = 0 := by
  unfold distMeters
  rw [← hlat, ← hlon]
  simp [atan2]

lemma distNm_same_pos (ac1 ac2 : Aircraft)
    (hlat : ac1.latitude = ac2.latitude) (hlon : ac1.longitude = ac2.longitude) :
    distNm ac1 ac2 = 0 := by
  simp [distNm, distMeters_same_pos ac1 ac2 hlat hlon]

lemma mem_conflictFeatures (l : List Aircraft) (p : Aircraft × Aircraft) :
    p ∈ conflictFeatures l ↔ p ∈ orderedPairs l ∧ isConflict p.1 p.2 := by
  simp [conflictFeatures, List.mem_filter]

lemma mem_orderedPairs {α : Type} (x y : α) (l : List α) :
    (x, y) ∈ orderedPairs l ↔ [x, y].Sublist l := by
  induction l with
  | nil => simp [orderedPairs]
  | cons a as ih =>
    simp only [orderedPairs, List.mem_append, List.mem_map, ih]
    constructor
    · rintro (⟨z, hz, heq⟩ | h)
      · injection heq with h1 h2
        subst h1; subst h2
        exact List.Sublist.cons₂ a (List.singleton_sublist.mpr hz)
      · exact h.cons a
    · intro h
      rcases List.sublist_cons_iff.mp h with h | ⟨r, hr, hsub⟩
      · exact Or.inr h
      · left
        injection hr with h1 h2
        subst h1
        refine ⟨y, ?_, rfl⟩
        rw [← h2] at hsub
        exact List.singleton_sublist.mp hsub

lemma pair_sublist_of_mem {α : Type} {x y : α} (hxy : x ≠ y) :
    ∀ l : List α, x ∈ l → y ∈ l → ([x, y].Sublist l ∨ [y, x].Sublist l) := by
  intro l
  induction l with
  | nil => intro hx; simp at hx
  | cons a as ih =>
    intro hx hy
    by_cases hxa : x = a
    · subst hxa
      have hy2 : y ∈ as := by
        rcases List.mem_cons.mp hy with h | h
        · exact absurd h.symm hxy
        · exact h
      exact Or.inl (List.Sublist.cons₂ x (List.singleton_sublist.mpr hy2))
    · by_cases hya : y = a
      · subst hya
        have hx2 : x ∈ as := by
          rcases List.mem_cons.mp hx with h | h
          · exact absurd h hxa
          · exact h
        exact Or.inr (List.Sublist.cons₂ y (List.singleton_sublist.mpr hx2))
      · have hx2 : x ∈ as := by
          rcases List.mem_cons.mp hx with h | h
          · exact absurd h hxa
          · exact h
        have hy2 : y ∈ as := by
          rcases List.mem_cons.mp hy with h | h
          · exact absurd h hya
          · exact h
        rcases ih hx2 hy2 with h | h
        · exact Or.inl (h.cons a)
        · exact Or.inr (h.cons a)

lemma sublist_pair_or_swap {α : Type} (x y : α) (hxy : x ≠ y) (l : List α) :
    ([x, y].Sublist l ∨ [y, x].Sublist l) ↔ x ∈ l ∧ y ∈ l := by
  constructor
  · rintro (h | h)
    · exact ⟨h.subset (by simp), h.subset (by simp)⟩
    · exact ⟨h.subset (by simp), h.subset (by simp)⟩
  · rintro ⟨hx, hy⟩
    exact pair_sublist_of_mem hxy l hx hy

lemma pair_or_swap_perm {α : Type} {l l2 : List α} (h : l.Perm l2) (x y : α) :
    ([x, y].Sublist l ∨ [y, x].Sublist l) ↔ ([x, y].Sublist l2 ∨ [y, x].Sublist l2) := by
  classical
  by_cases hxy : x = y
  · subst hxy
    simp only [or_self]
    rw [← List.duplicate_iff_sublist, ← List.duplicate_iff_sublist,
      List.duplicate_iff_two_le_count, List.duplicate_iff_two_le_count, h.count_eq x]
  · rw [sublist_pair_or_swap x y hxy l, sublist_pair_or_swap x y hxy l2,
      h.mem_iff, h.mem_iff]

lemma hav_term_comm (la1 lo1 la2 lo2 : ℝ) :
    Real.sin ((la2 - la1) * π / 180 / 2) * Real.sin ((la2 - la1) * π / 180 / 2) +
      Real.cos (la1 * π / 180) * Real.cos (la2 * π / 180) *
        Real.sin ((lo2 - lo1) * π / 180 / 2) * Real.sin ((lo2 - lo1) * π / 180 / 2) =
    Real.sin ((la1 - la2) * π / 180 / 2) * Real.sin ((la1 - la2) * π / 180 / 2) +
      Real.cos (la2 * π / 180) * Real.cos (la1 * π / 180) *
        Real.sin ((lo1 - lo2) * π / 180 / 2) * Real.sin ((lo1 - lo2) * π / 180 / 2) := by
  have keyS : ∀ u v : ℝ,
      Real.sin ((u - v) * π / 180 / 2) = -Real.sin ((v - u) * π / 180 / 2) := by
    intro u v
    have h : (u - v) * π / 180 / 2 = -((v - u) * π / 180 / 2) := by ring
    rw [h, Real.sin_neg]
  rw [keyS la2 la1, keyS lo2 lo1]
  ring

lemma distMeters_comm (a b : Aircraft) : distMeters a b = distMeters b a := by
  simp only [distMeters]
  rw [hav_term_comm a.latitude a.longitude b.latitude b.longitude]

lemma altDiff_comm (a b : Aircraft) : altDiff a b = altDiff b a := by
  simp [altDiff, abs_sub_comm]

lemma isConflict_comm (a b : Aircraft) : isConflict a b ↔ isConflict b a := by
  unfold isConflict distNm
  rw [distMeters_comm, altDiff_comm]

/-! Theorems for the claims. -/

/-- C10: the pairwise conflict predicate is symmetric in its two aircraft,
and consequently the symmetric closure of the set of flagged pairs is
invariant under permuting the input aircraft list. -/
theorem C10_conflict_symmetric :
    (∀ a b : Aircraft, isConflict a b ↔ isConflict b a) ∧
    ∀ (l l2 : List Aircraft), l.Perm l2 → ∀ x y : Aircraft,
      (((x, y) ∈ conflictFeatures l ∨ (y, x) ∈ conflictFeatures l) ↔
        ((x, y) ∈ conflictFeatures l2 ∨ (y, x) ∈ conflictFeatures l2)) := by
  refine ⟨isConflict_comm, ?_⟩
  intro l l2 hperm x y
  simp only [mem_conflictFeatures, mem_orderedPairs]
  rw [isConflict_comm y x]
  constructor
  · rintro (⟨h1, h2⟩ | ⟨h1, h2⟩)
    · rcases (pair_or_swap_perm hperm x y).mp (Or.inl h1) with h | h
      · exact Or.inl ⟨h, h2⟩
      · exact Or.inr ⟨h, h2⟩
    · rcases (pair_or_swap_perm hperm x y).mp (Or.inr h1) with h | h
      · exact Or.inl ⟨h, h2⟩
      · exact Or.inr ⟨h, h2⟩
  · rintro (⟨h1, h2⟩ | ⟨h1, h2⟩)
    · rcases (pair_or_swap_perm hperm x y).mpr (Or.inl h1) with h | h
      · exact Or.inl ⟨h, h2⟩
      · exact Or.inr ⟨h, h2⟩
    · rcases (pair_or_swap_perm hperm x y).mpr (Or.inr h1) with h | h
      · exact Or.inl ⟨h, h2⟩
      · exact Or.inr ⟨h, h2⟩

/-- C6: resolving a task by id removes exactly the tasks carrying that id:
none remains, the surviving list is a sublist of the original (so every
other task is unchanged and keeps its relative order), and every task with
a different id keeps its multiplicity. -/
theorem C6_resolve_removes_exactly (tasks : List Task) (taskId : String) :
    (∀ t ∈ resolveTask tasks taskId, t.id ≠ taskId) ∧
    (resolveTask tasks taskId).Sublist tasks ∧
    (∀ t : Task, t.id ≠ taskId → (resolveTask tasks taskId).count t = tasks.count t) := by
  refine ⟨?_, List.filter_sublist _, ?_⟩
  · intro t ht
    have h := List.of_mem_filter ht
    simpa using h
  · intro t ht
    unfold resolveTask
    rw [List.count_filter]
    simp [ht]

/-- Witness for C6 at a concrete two-task list. -/
theorem C6_resolve_removes_exactly_witness :
    (∀ t ∈ resolveTask [taskA, taskB] "t1", t.id ≠ "t1") ∧
    (resolveTask [taskA, taskB] "t1").Sublist [taskA, taskB] ∧
    (∀ t : Task, t.id ≠ "t1" →
      (resolveTask [taskA, taskB] "t1").count t = [taskA, taskB].count t) :=
  C6_resolve_removes_exactly [taskA, taskB] "t1"

/-- C7: the score colour classification partitions the score exactly at the
cut points 40, 60 and 80 (green, yellow, orange, red), and the level colour
map sends LOW, MODERATE, HIGH, CRITICAL to the matching colours. -/
theorem C7_score_partition :
    (∀ s : ℚ, getScoreColor s =
      if s < 40 then "text-green-500"
      else if s < 60 then "text-yellow-500"
      else if s < 80 then "text-orange-500"
      else "text-red-500") ∧
    getWorkloadColor "LOW" = "text-green-500" ∧
    getWorkloadColor "MODERATE" = "text-yellow-500" ∧
    getWorkloadColor "HIGH" = "text-orange-500 font-bold" ∧
    getWorkloadColor "CRITICAL" = "text-red-600 font-bold animate-pulse" := by
  refine ⟨?_, rfl, rfl, rfl, rfl⟩
  intro s
  unfold getScoreColor
  split_ifs <;> first | rfl | linarith

/-- C3 counterexample: on a concrete singleton aircraft list, the projection
horizons actually generated are 2, 5 and 8 minutes; no projection at the
claimed horizons 10 or 15 minutes exists. -/
theorem C3_counterexample :
    ((2 : ℝ) ∈ (ghostFeatures [acSepA]).map Prod.snd) ∧
    ((10 : ℝ) ∉ (ghostFeatures [acSepA]).map Prod.snd) ∧
    ((15 : ℝ) ∉ (ghostFeatures [acSepA]).map Prod.snd) := by
  have h : (ghostFeatures [acSepA]).map Prod.snd = [2, 5, 8] := by
    simp [ghostFeatures, ghostMinutes]
  refine ⟨?_, ?_, ?_⟩ <;> rw [h] <;> norm_num

/-- C3 amended: positions are projected per aircraft (not per pair) at the
horizons +2, +5 and +8 minutes using calculateFuturePosition; every aircraft
of the tick contributes exactly one ghost point per horizon and nothing
else is derived from the projections. -/
theorem C3_ghost_projection (l : List Aircraft) :
    ghostMinutes = [2, 5, 8] ∧
    (∀ ac ∈ l, ∀ m ∈ ghostMinutes,
      (calculateFuturePosition ac.latitude ac.longitude ac.velocity_kts ac.heading_deg m, m)
        ∈ ghostFeatures l) ∧
    (ghostFeatures l).length = 3 * l.length := by
  refine ⟨rfl, ?_, ?_⟩
  · intro ac hac m hm
    simp only [ghostFeatures, List.mem_flatMap]
    exact ⟨ac, hac, List.mem_map.mpr ⟨m, hm, rfl⟩⟩
  · induction l with
    | nil => simp [ghostFeatures]
    | cons a as ih =>
      simp only [ghostFeatures, List.flatMap_cons, List.length_append,
        List.length_map, List.length_cons] at ih ⊢
      simp only [ghostMinutes, List.length_cons, List.length_nil] at ih ⊢
      omega

/-- Witness for C3 amended at a concrete aircraft and horizon. -/
theorem C3_ghost_projection_witness :
    (calculateFuturePosition acSepA.latitude acSepA.longitude
      acSepA.velocity_kts acSepA.heading_deg 2, (2 : ℝ)) ∈ ghostFeatures [acSepA] :=
  (C3_ghost_projection [acSepA]).2.1 acSepA (by simp) 2 (by simp [ghostMinutes])

lemma distMeters_lat_pair (ac1 ac2 : Aircraft) (t : ℝ)
    (h1 : ac1.longitude = ac2.longitude)
    (h2 : (ac2.latitude - ac1.latitude) * π / 180 / 2 = t)
    (ht1 : 0 ≤ t) (ht2 : t < π / 2) :
    distMeters ac1 ac2 = 6371e3 * (2 * t) := by
  have hpi := Real.pi_pos
  have hs : 0 ≤ Real.sin t :=
    Real.sin_nonneg_of_nonneg_of_le_pi ht1 (by linarith)
  have hc : 0 < Real.cos t := Real.cos_pos_of_mem_Ioo ⟨by linarith, ht2⟩
  simp only [distMeters]
  rw [h2, ← h1]
  simp only [sub_self, zero_mul, zero_div, Real.sin_zero, mul_zero, add_zero]
  rw [show Real.sin t * Real.sin t = Real.sin t ^ 2 by ring, Real.sqrt_sq hs,
    ← Real.cos_sq', Real.sqrt_sq hc.le, atan2_sin_cos (by linarith) ht2]

lemma distNm_sample : distNm acSepA acSepB = 6371e3 * (2 * (π / 5400)) / 1852 := by
  have h := distMeters_lat_pair acSepA acSepB (π / 5400)
    (by simp [acSepA, acSepB]) (by simp [acSepA, acSepB]; ring)
    (by positivity) (by linarith [Real.pi_pos])
  rw [distNm, h]

lemma distNm_sample_lt5 : distNm acSepA acSepB < 5 := by
  rw [distNm_sample]
  nlinarith [Real.pi_lt_d2]

lemma distNm_sample_ge3 : ¬ distNm acSepA acSepB < 3 := by
  rw [distNm_sample, not_lt]
  nlinarith [Real.pi_gt_three]

lemma altDiff_sample : altDiff acSepA acSepB = 0 := by
  simp [altDiff, acSepA, acSepB]

/-- C1: the source produces its conflict (SEPARATION) feature for a pair of
airborne aircraft whose horizontal separation is about 4.0 nautical miles,
at least 3.0 nm: the implemented cutoff is 5 nm, contradicting the claimed
(and commented) 3.0 nm criterion. -/
theorem C1_threshold_divergence :
    (acSepA, acSepB) ∈ conflictFeatures [acSepA, acSepB] ∧
    acSepA.on_ground = false ∧ acSepB.on_ground = false ∧
    ¬ distNm acSepA acSepB < 3 ∧ altDiff acSepA acSepB < 1000 := by
  refine ⟨?_, rfl, rfl, distNm_sample_ge3, ?_⟩
  · rw [mem_conflictFeatures]
    refine ⟨by simp [orderedPairs], distNm_sample_lt5, ?_⟩
    rw [altDiff_sample]; norm_num
  · rw [altDiff_sample]; norm_num

/-- C2 counterexample: two on-ground aircraft at the same position are not
skipped; the conflict feature is produced for their pair. -/
theorem C2_counterexample :
    acG1.on_ground = true ∧ acG2.on_ground = true ∧
    (acG1, acG2) ∈ conflictFeatures [acG1, acG2] := by
  refine ⟨rfl, rfl, ?_⟩
  rw [mem_conflictFeatures]
  refine ⟨by simp [orderedPairs], ?_, ?_⟩
  · rw [distNm_same_pos acG1 acG2 (by simp [acG1, acG2]) (by simp [acG1, acG2])]
    norm_num
  · simp [altDiff, acG1, acG2]

/-- C2 amended: the conflict pass applies no on-ground filter: every ordered
pair meeting the separation condition yields a conflict feature, and the
conflict condition is insensitive to the on_ground flags. -/
theorem C2_no_onground_skip :
    (∀ (l : List Aircraft) (p : Aircraft × Aircraft),
      p ∈ orderedPairs l → isConflict p.1 p.2 → p ∈ conflictFeatures l) ∧
    (∀ (a b : Aircraft) (g1 g2 : Bool),
      isConflict { a with on_ground := g1 } { b with on_ground := g2 } ↔ isConflict a b) := by
  constructor
  · intro l p h1 h2
    exact (mem_conflictFeatures l p).mpr ⟨h1, h2⟩
  · intro a b g1 g2
    exact Iff.rfl

/-- Witness for C2 amended at a concrete on-ground pair. -/
theorem C2_no_onground_skip_witness :
    (acG1, acG2) ∈ conflictFeatures [acG1, acG2] ∧
    (isConflict { acG1 with on_ground := false } { acG2 with on_ground := false } ↔
      isConflict acG1 acG2) :=
  ⟨C2_no_onground_skip.1 [acG1, acG2] (acG1, acG2) (by simp [orderedPairs])
    ⟨by rw [distNm_same_pos acG1 acG2 (by simp [acG1, acG2]) (by simp [acG1, acG2])]
        norm_num,
     by simp [altDiff, acG1, acG2]⟩,
   C2_no_onground_skip.2 acG1 acG2 false false⟩

/-! NaN propagation lemmas. -/

@[simp] lemma nmap_none (f : ℝ → ℝ) : nmap f none = none := rfl

@[simp] lemma nmap2_none_left (f : ℝ → ℝ → ℝ) (y : RF) : nmap2 f none y = none := rfl

@[simp] lemma nmap2_none_right (f : ℝ → ℝ → ℝ) (x : RF) : nmap2 f x none = none := by
  cases x <;> rfl

@[simp] lemma nsqrt_none : nsqrt none = none := rfl

@[simp] lemma nltb_none_left (y : RF) : nltb none y = false := rfl

lemma distMetersN_none (p q : AircraftN)
    (h : p.latitude = none ∨ p.longitude = none ∨ q.latitude = none ∨ q.longitude = none) :
    distMetersN p q = none := by
  rcases h with h | h | h | h <;>
    simp [distMetersN, nsin, ncos, natan2, nadd, nsub, nmul, ndiv, h]

/-- C5: a NaN latitude or longitude on either aircraft of a pair makes the
computed separation NaN, the conflict condition false (so no feature is
produced for that pair), and the pass over all pairs still completes and
classifies every pair by the same rule. -/
theorem C5_nan_skip (l : List AircraftN) (p : AircraftN × AircraftN)
    (h : p.1.latitude = none ∨ p.1.longitude = none ∨
      p.2.latitude = none ∨ p.2.longitude = none) :
    distNmN p.1 p.2 = none ∧ p ∉ conflictFeaturesN l ∧
    ∀ q : AircraftN × AircraftN,
      q ∈ conflictFeaturesN l ↔ q ∈ orderedPairs l ∧ isConflictN q.1 q.2 = true := by
  have hd : distNmN p.1 p.2 = none := by
    simp [distNmN, distMetersN_none p.1 p.2 h, ndiv]
  have hc : isConflictN p.1 p.2 = false := by
    simp [isConflictN, hd, nltb]
  refine ⟨hd, ?_, ?_⟩
  · intro hmem
    have h2 := (List.mem_filter.mp hmem).2
    simp only [hc] at h2
    exact Bool.false_ne_true h2
  · intro q
    simp [conflictFeaturesN, List.mem_filter]

/-- Witness for C5 at a concrete pair whose first aircraft has NaN latitude. -/
theorem C5_nan_skip_witness :
    distNmN acN1 acN2 = none ∧ (acN1, acN2) ∉ conflictFeaturesN [acN1, acN2] ∧
    ∀ q : AircraftN × AircraftN,
      q ∈ conflictFeaturesN [acN1, acN2] ↔
        q ∈ orderedPairs [acN1, acN2] ∧ isConflictN q.1 q.2 = true :=
  C5_nan_skip [acN1, acN2] (acN1, acN2) (Or.inl rfl)

/-! Lemmas for the haversine equivalence (C4). -/

lemma arcsin_sqrt_atan2 {x : ℝ} (h0 : 0 ≤ x) (h1 : x ≤ 1) :
    atan2 (Real.sqrt x) (Real.sqrt (1 - x)) = Real.arcsin (Real.sqrt x) := by
  rcases eq_or_lt_of_le h1 with heq | hlt
  · subst heq
    norm_num [atan2, Real.arcsin_one]
  · have hpos : 0 < Real.sqrt (1 - x) := Real.sqrt_pos.mpr (by linarith)
    rw [atan2_of_pos _ _ hpos]
    have hlt1 : Real.sqrt x < 1 := by
      rw [show (1 : ℝ) = Real.sqrt 1 from (Real.sqrt_one).symm]
      exact Real.sqrt_lt_sqrt h0 hlt
    have hmem : Real.sqrt x ∈ Set.Ioo (-(1 : ℝ)) 1 :=
      ⟨by nlinarith [Real.sqrt_nonneg x], hlt1⟩
    rw [Real.arcsin_eq_arctan hmem, Real.sq_sqrt h0]

lemma lat_rad_bounds {u : ℝ} (h1 : -90 ≤ u) (h2 : u ≤ 90) :
    -(π / 2) ≤ u * π / 180 ∧ u * π / 180 ≤ π / 2 := by
  have hpi := Real.pi_pos
  constructor <;> nlinarith

lemma hav_term_bounds (la1 lo1 la2 lo2 : ℝ)
    (h1 : -90 ≤ la1) (h2 : la1 ≤ 90) (h3 : -90 ≤ la2) (h4 : la2 ≤ 90) :
    0 ≤ Real.sin ((la2 - la1) * π / 180 / 2) * Real.sin ((la2 - la1) * π / 180 / 2) +
        Real.cos (la1 * π / 180) * Real.cos (la2 * π / 180) *
          Real.sin ((lo2 - lo1) * π / 180 / 2) * Real.sin ((lo2 - lo1) * π / 180 / 2) ∧
      Real.sin ((la2 - la1) * π / 180 / 2) * Real.sin ((la2 - la1) * π / 180 / 2) +
        Real.cos (la1 * π / 180) * Real.cos (la2 * π / 180) *
          Real.sin ((lo2 - lo1) * π / 180 / 2) * Real.sin ((lo2 - lo1) * π / 180 / 2) ≤ 1 := by
  have hb1 := lat_rad_bounds h1 h2
  have hb2 := lat_rad_bounds h3 h4
  have hc1 : 0 ≤ Real.cos (la1 * π / 180) := Real.cos_nonneg_of_mem_Icc ⟨hb1.1, hb1.2⟩
  have hc2 : 0 ≤ Real.cos (la2 * π / 180) := Real.cos_nonneg_of_mem_Icc ⟨hb2.1, hb2.2⟩
  constructor
  · nlinarith [mul_self_nonneg (Real.sin ((la2 - la1) * π / 180 / 2)),
      mul_self_nonneg (Real.sin ((lo2 - lo1) * π / 180 / 2)), mul_nonneg hc1 hc2,
      mul_nonneg (mul_nonneg hc1 hc2) (mul_self_nonneg (Real.sin ((lo2 - lo1) * π / 180 / 2)))]
  · have e1 : Real.sin ((la2 - la1) * π / 180 / 2) * Real.sin ((la2 - la1) * π / 180 / 2) =
        (1 - Real.cos ((la2 - la1) * π / 180)) / 2 := by
      rw [show Real.sin ((la2 - la1) * π / 180 / 2) * Real.sin ((la2 - la1) * π / 180 / 2) =
        Real.sin ((la2 - la1) * π / 180 / 2) ^ 2 from by ring, sin_half_sq]
    have e2 : Real.sin ((lo2 - lo1) * π / 180 / 2) * Real.sin ((lo2 - lo1) * π / 180 / 2) =
        (1 - Real.cos ((lo2 - lo1) * π / 180)) / 2 := by
      rw [show Real.sin ((lo2 - lo1) * π / 180 / 2) * Real.sin ((lo2 - lo1) * π / 180 / 2) =
        Real.sin ((lo2 - lo1) * π / 180 / 2) ^ 2 from by ring, sin_half_sq]
    have e3 : Real.cos ((la2 - la1) * π / 180) =
        Real.cos (la2 * π / 180) * Real.cos (la1 * π / 180) +
        Real.sin (la2 * π / 180) * Real.sin (la1 * π / 180) := by
      rw [show (la2 - la1) * π / 180 = la2 * π / 180 - la1 * π / 180 from by ring,
        Real.cos_sub]
    have e4 : Real.cos (la1 * π / 180 + la2 * π / 180) =
        Real.cos (la1 * π / 180) * Real.cos (la2 * π / 180) -
        Real.sin (la1 * π / 180) * Real.sin (la2 * π / 180) := Real.cos_add _ _
    have e5 : Real.cos (la1 * π / 180 + la2 * π / 180) ≤ 1 := Real.cos_le_one _
    have e6 : -1 ≤ Real.cos ((lo2 - lo1) * π / 180) := Real.neg_one_le_cos _
    nlinarith [mul_nonneg (mul_nonneg hc1 hc2)
      (show (0 : ℝ) ≤ Real.cos ((lo2 - lo1) * π / 180) + 1 from by linarith)]

/-- C4: the computed horizontal separation equals the haversine great-circle
distance of the spec (earth radius 6371 km, metres to nautical miles by
dividing by 1852), and the vertical separation equals the absolute altitude
delta, for any two aircraft with valid latitudes. -/
theorem C4_separation_is_haversine (a b : Aircraft)
    (h1 : -90 ≤ a.latitude) (h2 : a.latitude ≤ 90)
    (h3 : -90 ≤ b.latitude) (h4 : b.latitude ≤ 90) :
    distNm a b = specSeparationHorizontalNm a b ∧
    altDiff a b = specSeparationVerticalFt a b := by
  refine ⟨?_, rfl⟩
  obtain ⟨hb0, hb1⟩ :=
    hav_term_bounds a.latitude a.longitude b.latitude b.longitude h1 h2 h3 h4
  simp only [distNm, distMeters, specSeparationHorizontalNm]
  rw [arcsin_sqrt_atan2 hb0 hb1]
  ring_nf

/-- Witness for C4 at a concrete pair of aircraft. -/
theorem C4_separation_is_haversine_witness :
    distNm acSepA acSepB = specSeparationHorizontalNm acSepA acSepB ∧
    altDiff acSepA acSepB = specSeparationVerticalFt acSepA acSepB :=
  C4_separation_is_haversine acSepA acSepB (by norm_num [acSepA]) (by norm_num [acSepA])
    (by norm_num [acSepB]) (by norm_num [acSepB])

/-! Lemmas for the two position-projection implementations (C8, C9). -/

lemma predict_equator (v t : ℝ) : predictPosition (acEq v) t 0 = (0, v / 60 * t / 69) := by
  simp [predictPosition, acEq]

lemma calcFut_equator (v t : ℝ)
    (hl : -(π / 2) ≤ v * 1852 * t / 60 / 6371e3) (hr : v * 1852 * t / 60 / 6371e3 ≤ π / 2) :
    calculateFuturePosition 0 0 v 0 t = (0, v * 1852 * t / 60 / 6371e3 * 180 / π) := by
  simp only [calculateFuturePosition, zero_mul, zero_div, Real.sin_zero, Real.cos_zero,
    one_mul, mul_one, mul_zero, zero_add, add_zero, sub_zero]
  rw [Real.arcsin_sin hl hr, atan2_zero_of_nonneg _ (Real.cos_nonneg_of_mem_Icc ⟨hl, hr⟩)]
  simp

/-- C8 counterexample: at the equator heading due north, 60 knots for one
minute, the flat-earth and spherical projections return different pairs. -/
theorem C8_counterexample :
    predictPosition (acEq 60) 1 0 ≠ calculateFuturePosition 0 0 60 0 1 := by
  have hpi := Real.pi_gt_three
  have h1 : calculateFuturePosition 0 0 60 0 1 =
      (0, 60 * 1852 * 1 / 60 / 6371e3 * 180 / π) :=
    calcFut_equator 60 1 (by nlinarith) (by nlinarith)
  rw [predict_equator, h1]
  intro h
  have h3 := congrArg Prod.snd h
  simp only at h3
  have hne := Real.pi_ne_zero
  field_simp at h3
  nlinarith [Real.pi_lt_d2]

/-- C8 amended: the two projection implementations are not equivalent: for
every positive speed and horizon (with the travelled angle at most a quarter
turn), an aircraft at the equator heading due north is sent to two different
positions, because the flat-earth code uses 69 miles per degree while the
spherical code uses the earth radius 6371 km. -/
theorem C8_not_equivalent (v t : ℝ) (hv : 0 < v) (ht : 0 < t)
    (hb : v * 1852 * t / 60 / 6371e3 ≤ π / 2) :
    predictPosition (acEq v) t 0 ≠ calculateFuturePosition 0 0 v 0 t := by
  have hd : 0 < v * 1852 * t / 60 / 6371e3 := by positivity
  rw [predict_equator, calcFut_equator v t (by linarith [Real.pi_pos]) hb]
  intro h
  have h3 := congrArg Prod.snd h
  simp only at h3
  have hne := Real.pi_ne_zero
  have hvt : 0 < v * t := mul_pos hv ht
  field_simp at h3
  nlinarith [Real.pi_lt_d2, hvt, mul_pos hvt (show (0 : ℝ) < 6371000 from by norm_num)]

/-- Witness for C8 amended at 120 knots over two minutes. -/
theorem C8_not_equivalent_witness :
    predictPosition (acEq 120) 2 0 ≠ calculateFuturePosition 0 0 120 0 2 :=
  C8_not_equivalent 120 2 (by norm_num) (by norm_num)
    (by nlinarith [Real.pi_gt_three])

/-- C9: projecting by zero minutes is the identity for both implementations,
for any aircraft with a valid latitude. -/
theorem C9_zero_projection (ac : Aircraft)
    (h1 : -90 ≤ ac.latitude) (h2 : ac.latitude ≤ 90) :
    predictPosition ac 0 0 = (ac.longitude, ac.latitude) ∧
    calculateFuturePosition ac.latitude ac.longitude ac.velocity_kts ac.heading_deg 0 =
      (ac.longitude, ac.latitude) := by
  have hb := lat_rad_bounds h1 h2
  have hne := Real.pi_ne_zero
  constructor
  · simp [predictPosition]
  · simp only [calculateFuturePosition, mul_zero, zero_div, zero_mul, Real.cos_zero,
      Real.sin_zero, one_mul, mul_one, add_zero]
    rw [Real.arcsin_sin hb.1 hb.2]
    rw [atan2_zero_of_nonneg _
      (by nlinarith [Real.sin_sq_le_one (ac.latitude * π / 180)])]
    rw [Prod.mk.injEq]
    constructor <;> field_simp

/-- Witness for C9 at a concrete aircraft. -/
theorem C9_zero_projection_witness :
    predictPosition (acEq 60) 0 0 = ((acEq 60).longitude, (acEq 60).latitude) ∧
    calculateFuturePosition (acEq 60).latitude (acEq 60).longitude (acEq 60).velocity_kts
      (acEq 60).heading_deg 0 = ((acEq 60).longitude, (acEq 60).latitude) :=
  C9_zero_projection (acEq 60) (by norm_num [acEq]) (by norm_num [acEq])

/-- Witness for C10 at a concrete pair and a concrete permutation. -/
theorem C10_conflict_symmetric_witness :
    (isConflict acSepA acSepB ↔ isConflict acSepB acSepA) ∧
    (((acSepA, acSepB) ∈ conflictFeatures [acSepA, acSepB] ∨
      (acSepB, acSepA) ∈ conflictFeatures [acSepA, acSepB]) ↔
     ((acSepA, acSepB) ∈ conflictFeatures [acSepB, acSepA] ∨
      (acSepB, acSepA) ∈ conflictFeatures [acSepB, acSepA])) :=
  ⟨C10_conflict_symmetric.1 acSepA acSepB,
   C10_conflict_symmetric.2 [acSepA, acSepB] [acSepB, acSepA]
     (List.Perm.swap acSepB acSepA []) acSepA acSepB⟩

end Ares
